import Mathlib

/-!
# Verification of the Doqu storage/query core

Shallow embedding of the Doqu document-storage abstraction layer
(`doqu/backend_base.py`, `doqu/document_base.py` and the shelve/MongoDB
backend adapters) together with proofs settling the frozen claims about it.

Each Python component is translated into an executable Lean definition that
follows the source line by line; Python exceptions become `Except`/`Option`
results, Python dictionaries become association lists, and Python truthiness
is made explicit where the source relies on it.  Components of the package
that are referenced by the sources but absent from the tree
(`doqu.utils.data_structures`, the shelve `converters`/`lookups` modules)
are modelled from the specification and marked as such in their doc comments.
-/

set_option autoImplicit false

/-! ## Converter registry (`ConverterManager`, backend_base.py 527-747)

`ProcessorManager.get_processor` preprocesses the requested key and looks it
up in the `processors` dict; a truthy key that misses raises
`DataProcessorDoesNotExist` (the `default` handler is consulted only for a
falsy key).  `ConverterManager._preprocess_key` maps any `Document` subclass
to the canonical `Document` key and any `OneToManyRelation` *instance* to the
canonical `OneToManyRelation` key.  `ConverterManager._pick_processor`
computes the datatype's `mro()` and loops over the bases, but inside the loop
it calls `self.get_processor(datatype)` — with the original `datatype`, not
the current base — so the loop retries the exact same lookup once per base. -/

namespace Registry

/-- A key of the converter registry: the canonical `Document` class, the
canonical `OneToManyRelation` class, or any other Python class (by id). -/
inductive PKey where
  | kDocument
  | kOneToMany
  | kCls (n : Nat)
  deriving DecidableEq, Repr

/-- The datatype argument handed to `from_db`/`to_db` resolution: either a
Python class (with its `mro()` as a list of class ids, head = the class
itself, and a flag for `issubclass(·, Document)`), or an instance of
`OneToManyRelation` (the declared type of a to-many field).  Note that
`Document` has an `ABCMeta`-derived metaclass, so `issubclass(x, Document)`
returns `False` (rather than raising `TypeError`) when `x` is not a class. -/
inductive Dtype where
  | cls (mro : List Nat) (isDocSubclass : Bool)
  | relInstance
  deriving DecidableEq, Repr

/-- A converter registry: `processors` dict (processors identified by id)
and the optional `default` processor. -/
structure Manager where
  processors : List (PKey × Nat)
  default : Option Nat
  deriving Repr

def lookupKey (ps : List (PKey × Nat)) (k : PKey) : Option Nat :=
  (ps.find? (fun p => p.1 = k)).map (·.2)

/-- Embedding of `ConverterManager._preprocess_key` (backend_base.py 686-691).
For a class: `issubclass(value, Document)` selects the canonical Document
key; a class is never an `isinstance` of `OneToManyRelation`, so otherwise
the class itself is the key.  For a `OneToManyRelation` instance:
`issubclass` is `False` (ABCMeta), `isinstance` is `True`. -/
def preprocessKey : Dtype → PKey
  | .cls mro isDoc => if isDoc then .kDocument else .kCls (mro.headD 0)
  | .relInstance => .kOneToMany

/-- Every converter-registry key is a Python class, hence truthy; kept
explicit because `get_processor` branches on the key's truthiness. -/
def keyTruthy : PKey → Bool := fun _ => true

/-- Embedding of `ProcessorManager.get_processor` (backend_base.py 576-592): a truthy key
is looked up in `processors` (a miss raises `DataProcessorDoesNotExist`,
modelled as `none`); only a falsy key falls back to the default processor. -/
def getProcessor (m : Manager) (v : Dtype) : Option Nat :=
  let key := preprocessKey v
  if keyTruthy key then lookupKey m.processors key
  else m.default

/-- Embedding of `datatype.mro()` with the `AttributeError` fallback to
`type(datatype).mro()`: a `OneToManyRelation` instance has no `mro`, so its
class's mro `[OneToManyRelation, object]` is used (ids 1000, 1001 — the
content is irrelevant since the loop ignores the bases). -/
def basesOf : Dtype → List Nat
  | .cls mro _ => mro
  | .relInstance => [1000, 1001]

/-- The loop body of `ConverterManager._pick_processor` (backend_base.py
699-717): one iteration per base, but each iteration calls
`get_processor` with the original datatype `v`, exactly as the source does. -/
def pickLoop (m : Manager) (v : Dtype) : List Nat → Option Nat
  | [] => none
  | _ :: rest =>
    match getProcessor m v with
    | some p => some p
    | none => pickLoop m v rest

/-- Embedding of `ConverterManager._pick_processor`: `none` models raising
`DataProcessorDoesNotExist`. -/
def pickProcessor (m : Manager) (v : Dtype) : Option Nat :=
  pickLoop m v (basesOf v)

/-- A registry in which only class 1 (the base class) has a converter. -/
def mBase : Manager := ⟨[(.kCls 1, 7)], none⟩

/-- A class whose mro is `[itself (0), base (1), object (2)]`. -/
def dtSub : Dtype := .cls [0, 1, 2] false

/-- The base class itself, mro `[1, 2]`. -/
def dtBase : Dtype := .cls [1, 2] false

end Registry

/-! ## Batch fetch (`_get_many`)

`BaseStorageAdapter._get_many` (backend_base.py 130-132) is a generator that
fetches `self._get(pk)` per key; the first missing key raises the backend's
single-key `KeyError`, aborting the iteration.  The MongoDB
`StorageAdapter._get_many` (ext/mongodb 288-302) yields every found record
and afterwards raises one `KeyError` naming every requested key that was not
found.  A backend store is an association list from primary key to record;
consuming a generator is modelled as the pair (items yielded before any
exception, optional list of key names carried by the raised error). -/

namespace Batch

abbrev Rec := List (String × Int)
abbrev Store := List (String × Rec)

def storeLookup (s : Store) (k : String) : Option Rec :=
  (s.find? (fun p => p.1 = k)).map (·.2)

/-- Consuming the generic `BaseStorageAdapter._get_many(keys)`: per-key
`_get`, which raises `KeyError(key)` at the first absent key (shelve:
`self.connection[key]`); keys after it are never reached. -/
def baseConsume (s : Store) : List String → List (String × Rec) × Option (List String)
  | [] => ([], none)
  | k :: ks =>
    match storeLookup s k with
    | some d =>
      let rest := baseConsume s ks
      ((k, d) :: rest.1, rest.2)
    | none => ([], some [k])

/-- Consuming the MongoDB `StorageAdapter._get_many(keys)`: the `$in` query
returns the store's records whose key is requested (in store order); all of
them are yielded, then if fewer keys were found than requested one
`KeyError` is raised naming every requested key not among the found ones. -/
def mongoConsume (s : Store) (keys : List String) :
    List (String × Rec) × Option (List String) :=
  let results := s.filter (fun p => p.1 ∈ keys)
  let foundKeys := results.map Prod.fst
  if foundKeys.length < keys.length then
    (results, some (keys.filter (fun k => k ∉ foundKeys)))
  else
    (results, none)

end Batch

/-! ## Shelve query adapter (`doqu.ext.shelve_db.QueryAdapter`)

The shelve backend's query adapter mixes `CachedIterator` (from
`doqu.utils.data_structures`, a module absent from the source tree) with
`BaseQueryAdapter`.  A record is an association list from field name to
integer value, the store (`storage.connection`) an association list from
primary key to record, and a collected condition a boolean check over a
record (shelve lookup processors translate each condition into such a check
function, `_do_search` runs `all(check(data) for check in self._conditions)`).

The pieces present in the source are translated directly: `_do_search`
(filter the store, optionally sort by the `_ordering` spec), `_init` (store
the conditions/ordering and immediately set `self._iter = self._do_search()`),
`_clone`/`__where`/`order_by` (build a fresh adapter with appended
conditions), `_prepare` (re-run `_do_search` whenever `self._iter is None`)
and `_prepare_item` (fetch and decorate the record for a key).

The cache protocol itself is modelled from the spec: iteration serves the
cached elements first in first-fetch order, then pulls the remaining
elements from the live iterator, appending each to the cache; when the
iterator is exhausted it is dropped (`self._iter = None` — the two states of
`_iter` are documented in the MongoDB adapter's `_prepare` comment).  The
`searches` counter counts the `_do_search` invocations of one instance. -/

namespace Shelve

abbrev PK := String
abbrev Rec := List (String × Int)
abbrev Store := List (PK × Rec)
abbrev Cond := Rec → Bool

/-- The `_ordering` dict of the shelve query adapter: field names (already
reversed by `order_by`) and the sort direction. -/
structure OrdSpec where
  names : List String
  reverse : Bool

def recGet (r : Rec) (n : String) : Option Int :=
  (r.find? (fun p => p.1 = n)).map (·.2)

def storeGet (s : Store) (k : PK) : Rec :=
  ((s.find? (fun p => p.1 = k)).map (·.2)).getD []

/-- The `finder()` generator inside `_do_search`: iterate the store's keys,
yield those whose record passes every collected condition. -/
def finder (store : Store) (conds : List Cond) : List PK :=
  (store.filter (fun kd => conds.all (fun c => c kd.2))).map (·.1)

/-- Embedding of `make_sort_key` inside `_do_search`:
`[data[name] for name in names if data.get(name) is not None]` — the values
of the ordering fields present in the record, in `_ordering['names']` order. -/
def makeSortKey (store : Store) (names : List String) (pk : PK) : List Int :=
  names.filterMap (fun n => recGet (storeGet store pk) n)

/-- Python's lexicographic `<` on lists (a shorter prefix is smaller). -/
def listLt : List Int → List Int → Bool
  | [], [] => false
  | [], _ :: _ => true
  | _ :: _, [] => false
  | a :: as, b :: bs => if a < b then true else if b < a then false else listLt as bs

/-- Insert `x` before the first element it strictly precedes; equal-key
elements keep their earlier position (stability). -/
def sInsert {α : Type} (before : α → α → Bool) (x : α) : List α → List α
  | [] => [x]
  | y :: ys => if before x y then x :: y :: ys else y :: sInsert before x ys

/-- Modelled from the spec: `LazySorted` (absent from the source tree) hands
the data to a stable sort — as Python's `sorted(data, key=key,
reverse=reverse)` does — so it is modelled as a stable insertion sort with
the comparison reversed when `reverse` is set. -/
def stableSortBy {α : Type} (before : α → α → Bool) (l : List α) : List α :=
  l.foldl (fun acc x => sInsert before x acc) []

/-- Embedding of `QueryAdapter._do_search` (ext/shelve_db 81-108): filter, then — if an
ordering was collected — one single sort of the matching keys by the
composite `make_sort_key` list, with `reverse` from the ordering spec. -/
def doSearch (store : Store) (conds : List Cond) (ordering : Option OrdSpec) :
    List PK :=
  match ordering with
  | none => finder store conds
  | some o =>
    let key := makeSortKey store o.names
    let before := fun a b =>
      if o.reverse then listLt (key b) (key a) else listLt (key a) (key b)
    stableSortBy before (finder store conds)

/-- The state of one shelve `QueryAdapter` instance: the bound store, the
accumulated conditions and ordering, the `CachedIterator` cache and live
iterator, and a count of the `_do_search` calls made by this instance. -/
structure Query where
  store : Store
  conditions : List Cond
  ordering : Option OrdSpec
  cache : List (PK × Rec)
  iter : Option (List PK)
  searches : Nat

/-- Embedding of `QueryAdapter._init` (ext/shelve_db 110-117): record
`conditions or []` and `ordering or {}`, then immediately run
`self._iter = self._do_search()`. -/
def initQuery (store : Store) (conds : Option (List Cond))
    (ordering : Option OrdSpec) : Query :=
  let c := conds.getD []
  { store := store, conditions := c, ordering := ordering, cache := [],
    iter := some (doSearch store c ordering), searches := 1 }

/-- Embedding of `QueryAdapter._clone` (ext/shelve_db 139-145): a brand-new adapter over
the same store with `self._conditions + (extra_conditions or [])` and
`extra_ordering or self._ordering`. -/
def clone (q : Query) (extraConds : Option (List Cond))
    (extraOrd : Option OrdSpec) : Query :=
  initQuery q.store (some (q.conditions ++ extraConds.getD []))
    (match extraOrd with
     | some o => some o
     | none => q.ordering)

/-- Embedding of `QueryAdapter.__where(lookups, negate=False)` (ext/shelve_db
130-137): the conditions translated by the lookup registry (already as
check functions, negation folded into the translation) are appended via
`_clone`. -/
def privWhere (q : Query) (translated : List Cond) : Query :=
  clone q (some translated) none

/-- The Python call semantics of `QueryAdapter._where` (ext/shelve_db
155-161): besides `self` it declares only the keyword catch-all
`**conditions`, so a call handing it any positional argument raises
`TypeError` (`.error ()`) before the body `self.__where(conditions)` runs. -/
def whereCall (q : Query) (positionalArgs : Nat) (translated : List Cond) :
    Except Unit Query :=
  if positionalArgs ≠ 0 then .error ()
  else .ok (privWhere q translated)

/-- Embedding of `QueryAdapter._where(**conditions)`: an ordinary
keyword-argument call, no positional arguments. -/
def whereQ (q : Query) (translated : List Cond) : Except Unit Query :=
  whereCall q 0 translated

/-- Embedding of `QueryAdapter._where_not(**conditions)` (ext/shelve_db
163-168): its body is `return self._where(conditions, negate=True)`, which
hands the conditions dict to `_where` as one positional argument (while
`negate=True` merely lands in `_where`'s `**conditions`), so the inner call
raises `TypeError` unconditionally and the Query the line intended to build
(`self.__where(conditions, negate=True)`) is never produced. -/
def whereNotQ (q : Query) (translated : List Cond) : Except Unit Query :=
  whereCall q 1 translated

/-- Embedding of `QueryAdapter.order_by` (ext/shelve_db 234-272): normalise to a list,
reverse it (`names = list(reversed(names))`), and clone with the new
ordering spec. -/
def orderBy (q : Query) (names : List String) (reverse : Bool) : Query :=
  clone q none (some { names := names.reverse, reverse := reverse })

/-- Embedding of `QueryAdapter._prepare_item` (ext/shelve_db 126-128):
`self.storage.get(key, self.doc_class)` — fetch the record and decorate it;
for a plain dict document class the decoration is the `(key, data)` pair. -/
def prepareItem (q : Query) (pk : PK) : PK × Rec :=
  (pk, storeGet q.store pk)

/-- Embedding of `QueryAdapter._prepare` (ext/shelve_db 119-124): if `self._iter is
None`, run `self._iter = self._do_search()` again. -/
def prepareShelve (q : Query) : Query :=
  if q.iter = none then
    { q with iter := some (doSearch q.store q.conditions q.ordering),
             searches := q.searches + 1 }
  else q

/-- One full iteration of the query (`__iter__` consumed to exhaustion):
`_prepare` first, then — per the spec's cache protocol — serve the cache in
first-fetch order, pull every remaining key from the live iterator preparing
each item and appending it to the cache, and drop the exhausted iterator.
Returns the yielded sequence and the instance's state afterwards. -/
def runIter (q : Query) : List (PK × Rec) × Query :=
  let q1 := prepareShelve q
  let newItems := (q1.iter.getD []).map (prepareItem q1)
  let yielded := q1.cache ++ newItems
  (yielded, { q1 with cache := yielded, iter := none })

/-- A one-record store for exercising the iteration protocol. -/
def st3 : Store := [("k", [("a", 1)])]

/-- Two records whose first-listed and last-listed ordering fields pull in
opposite directions: `p1 = {a: 1, b: 2}`, `p2 = {a: 2, b: 1}`. -/
def st8 : Store := [("p1", [("a", 1), ("b", 2)]), ("p2", [("a", 2), ("b", 1)])]

end Shelve

namespace Batch

/-- A store with one record, for the C2 witness. -/
def wStore : Store := [("a", [("f", 1)])]

/-- A batch request naming one present and two absent keys. -/
def wKeys : List String := ["a", "b", "c"]

end Batch

/-! ## Document save pipeline (`document_base.py`)

`Document.save` (document_base.py 438-531) resolves the target storage,
fills defaults (`_collect_defaults`, 639-673), validates, merges the
structured fields over a copy of the previously fetched raw record, applies
outgoing processors and `value_to_db`, chooses the primary key to pass to
the backend, calls `storage.save`, asserts the returned key and updates the
`DocumentSavedState` (61-127).

Field values are `None`, strings, or integers.  `_collect_defaults`
discriminates a default that is callable by `isinstance(value,
types.FunctionType)`: a plain function (`def`/`lambda`) is called with the
document as its one argument, any other callable with no arguments — so a
callable is modelled by its `FunctionType`-ness plus its parameter count,
with an arity mismatch raising `TypeError`.  Per-field `__setitem__`
validation and the `validate()` pass are abstracted into a single boolean
validation parameter (the claims settled here concern saves that reach the
backend call); storage adapters are identified by `Nat` ids (Python compares
them by identity) and are modelled as connected, hence truthy. -/

namespace DocSave

/-- A Python field value. -/
inductive Val where
  | vnone
  | vstr (s : String)
  | vint (n : Int)
  deriving DecidableEq, Repr

/-- A document's `_data` dictionary (also the raw record dictionaries). -/
abbrev DData := List (String × Val)

/-- Embedding of `doc.get(name)`: `None` when the field is absent. -/
def dget (d : DData) (n : String) : Val :=
  (((d.find? (fun p => p.1 = n)).map (·.2))).getD .vnone

/-- Dictionary assignment `d[n] = v` (replace or append). -/
def dset (d : DData) (n : String) (v : Val) : DData :=
  if (d.find? (fun p => p.1 = n)).isSome then
    d.map (fun p => if p.1 = n then (n, v) else p)
  else d ++ [(n, v)]

/-- Embedding of `current_value is None or current_value == ''`. -/
def isEmptyVal (v : Val) : Bool :=
  v = .vnone || v = .vstr ""

/-- An entry of `meta.defaults`: a non-callable value, a plain function
(`types.FunctionType`) of zero or one parameter, or any other callable
object of zero or one parameter. -/
inductive PyDefault where
  | plain (v : Val)
  | fn0 (r : Val)
  | fn1 (f : DData → Val)
  | call0 (r : Val)
  | call1 (f : DData → Val)

/-- How `_collect_defaults` invokes a default (document_base.py 663-672):
a callable that is a `FunctionType` gets the document as argument, any
other callable is called with no arguments; `.error ()` is the `TypeError`
raised by a call whose arity does not match. -/
def applyDefault (dv : PyDefault) (d : DData) : Except Unit Val :=
  match dv with
  | .plain v => .ok v
  | .fn0 _ => .error ()
  | .fn1 f => .ok (f d)
  | .call0 r => .ok r
  | .call1 _ => .error ()

/-- Embedding of `_collect_defaults(doc)` (document_base.py 639-673), consumed as a
list: for each name of `meta.defaults` (in table order) whose current value
is `None`/`''`, the invoked default's value is yielded. -/
def collectDefaults (defs : List (String × PyDefault)) (d : DData) :
    Except Unit DData :=
  match defs with
  | [] => .ok []
  | (name, dv) :: rest =>
    if isEmptyVal (dget d name) then
      match applyDefault dv d with
      | .error e => .error e
      | .ok v =>
        match collectDefaults rest d with
        | .error e => .error e
        | .ok tail => .ok ((name, v) :: tail)
    else collectDefaults rest d

/-- How claim C5 (and spec §4.4) describes default invocation: arity-based —
"a zero-argument callable default is called with no arguments, and a
single-argument (document-aware) callable default is called with the
document instance as its argument". -/
def applyDefaultClaim (dv : PyDefault) (d : DData) : Val :=
  match dv with
  | .plain v => v
  | .fn0 r => r
  | .fn1 f => f d
  | .call0 r => r
  | .call1 f => f d

/-- The behaviour of `_collect_defaults` as claim C5 reads it: every empty/absent defaulted
field receives its arity-correctly invoked default. -/
def collectDefaultsClaim (defs : List (String × PyDefault)) (d : DData) :
    DData :=
  (defs.filter (fun p => isEmptyVal (dget d p.1))).map
    (fun p => (p.1, applyDefaultClaim p.2 d))

/-- Invoke each listed default by the `FunctionType`-based rule of
`applyDefault`, keeping the first raised `TypeError`. -/
def mapDefaults (d : DData) : List (String × PyDefault) → Except Unit DData
  | [] => .ok []
  | p :: rest =>
    match applyDefault p.2 d with
    | .error e => .error e
    | .ok v =>
      match mapDefaults d rest with
      | .error e => .error e
      | .ok tail => .ok ((p.1, v) :: tail)

/-- The amended description of `_collect_defaults`, assembled the way the
amended claim words it: take the defaulted fields whose current value is
`None`/`''`, in table order, and invoke each default by the
`FunctionType`-based rule of `applyDefault`. -/
def collectDefaultsAmended (defs : List (String × PyDefault)) (d : DData) :
    Except Unit DData :=
  mapDefaults d (defs.filter (fun p => isEmptyVal (dget d p.1)))

/-- The defaults table and document of the C5 counterexample: field `x` is
unset and its default is a zero-parameter plain function returning `5`. -/
def c5defs : List (String × PyDefault) := [("x", .fn0 (Val.vint 5))]

/-- Embedding of `DocumentSavedState`: storage reference (adapter id), primary key, and
the last raw data dictionary. -/
structure SState where
  storage : Option Nat
  key : Option String
  sdata : Option DData
  deriving Repr

/-- Truthiness of the state's storage: an adapter instance (modelled as
connected). -/
def storTruthy : Option Nat → Bool
  | none => false
  | some _ => true

/-- Truthiness of a primary key: `None` and `''` are falsy. -/
def keyTruthy : Option String → Bool
  | none => false
  | some s => s ≠ ""

/-- Truthiness of a data dictionary: `None` and `{}` are falsy. -/
def dataTruthy : Option DData → Bool
  | none => false
  | some l => l ≠ []

/-- Embedding of `DocumentSavedState.update` (document_base.py 116-127): a no-op when
all three arguments are falsy; otherwise `storage or self.storage`,
`key or self.key`, and `self.data if data is None else data.copy()`. -/
def SState.update (s : SState) (storage : Option Nat) (key : Option String)
    (data : Option DData) : SState :=
  if ¬(storTruthy storage || keyTruthy key || dataTruthy data) then s
  else
    { storage := if storTruthy storage then storage else s.storage,
      key := if keyTruthy key then key else s.key,
      sdata := if data = none then s.sdata else data }

/-- The metadata a save consults: declared structure (field names),
defaults table, outgoing processors, conversion-exempt fields. -/
structure Meta where
  fields : List String
  defaults : List (String × PyDefault)
  outgoing : List (String × (Val → Val))
  skipConv : List String

/-- A document: its `_data` and its `_saved_state`. -/
structure Doc where
  data : DData
  state : SState

/-- The collaborating storage behaviour: the `validate()` verdict, the
adapter's `value_to_db` conversion and the backend `storage.save` call
(returning the resulting key). -/
structure Env where
  validate : DData → Bool
  valueToDb : Val → Val
  backendSave : Option String → DData → String

inductive SaveErr where
  | noStorage
  | defaultTypeError
  | validationError
  | noKeyReturned
  deriving DecidableEq, Repr

/-- Storage resolution of `save`: the explicit argument, else the bound one. -/
def resolveStorage (doc : Doc) (storageArg : Option Nat) : Nat :=
  match storageArg with
  | some s => s
  | none => doc.state.storage.getD 0

/-- The primary key passed to the backend (document_base.py 513-518):
`self.pk` if `keep_key or storage == self._saved_state.storage`, else
`None`. -/
def savePrimaryKey (doc : Doc) (storage : Nat) (keepKey : Bool) :
    Option String :=
  if keepKey || (some storage = doc.state.storage) then doc.state.key
  else none

/-- The outgoing data dictionary (document_base.py 483-501): a copy of the
previously fetched raw record (empty if none), overlaid — for each declared
field, or each present field if the structure is empty — with the value run
through the field's outgoing processor (unless `None`) and through
`value_to_db` (unless conversion-exempt). -/
def buildOutgoing (meta : Meta) (env : Env) (state : SState) (d : DData) :
    DData :=
  let base := match state.sdata with
    | some sd => sd
    | none => []
  let pairs := if meta.fields = [] then d
    else meta.fields.map (fun n => (n, dget d n))
  pairs.foldl (fun acc p =>
    let v1 := match (meta.outgoing.find? (fun q => q.1 = p.1)).map (·.2) with
      | some f => if p.2 ≠ .vnone then f p.2 else p.2
      | none => p.2
    let v2 := if p.1 ∈ meta.skipConv then v1 else env.valueToDb v1
    dset acc p.1 v2) base

/-- Embedding of `Document.save(storage, keep_key)` (document_base.py 438-531). -/
def Doc.save (doc : Doc) (meta : Meta) (env : Env) (storageArg : Option Nat)
    (keepKey : Bool) : Except SaveErr (Doc × String) :=
  if ¬(storTruthy storageArg || storTruthy doc.state.storage) then
    .error .noStorage
  else
    let storage := resolveStorage doc storageArg
    match collectDefaults meta.defaults doc.data with
    | .error _ => .error .defaultTypeError
    | .ok pairs =>
      let data1 := pairs.foldl (fun acc p => dset acc p.1 p.2) doc.data
      if ¬ env.validate data1 then .error .validationError
      else
        let outData := buildOutgoing meta env doc.state data1
        let key := env.backendSave (savePrimaryKey doc storage keepKey) outData
        if key = "" then .error .noKeyReturned
        else
          .ok ({ data := data1,
                 state := doc.state.update (some storage) (some key)
                   (some outData) }, key)

/-- Witness document for C4: bound to storage 1 under key `k0`. -/
def wDoc : Doc :=
  { data := [("a", Val.vint 1)],
    state := { storage := some 1, key := some "k0", sdata := none } }

/-- Witness metadata: one declared field, no defaults or processors. -/
def wMeta : Meta :=
  { fields := ["a"], defaults := [], outgoing := [], skipConv := [] }

/-- Witness environment: validation passes, identity conversion, backend
returns the fresh key `k1`. -/
def wEnv : Env :=
  { validate := fun _ => true, valueToDb := fun v => v,
    backendSave := fun _ _ => "k1" }

/-- The document produced by the C4 witness save: rebound to storage 2
under the backend-returned key with the written data recorded. -/
def wRes : Doc :=
  { data := [("a", Val.vint 1)],
    state := { storage := some 2, key := some "k1",
               sdata := some [("a", Val.vint 1)] } }

end DocSave

/-! ## Type-check validation (`_validate_value_type`, document_base.py 770-801)

The declared type of a field is a `Document` subclass, a
`OneToManyRelation` instance, a lazy import-path string, or any other
class; a value is `None`, a string, or an object carrying its type's
`mro()` as a list of class ids and its `hasattr(value, '__iter__')` flag
(Python 2 strings do not have `__iter__`).  `issubclass(datatype,
Document)` is `False` — not a `TypeError` — for a `OneToManyRelation`
instance because `Document`'s metaclass derives `ABCMeta`.  A rejection
raises `ValidationError` carrying the document class name, the field
name and the failing value via the message format string. -/

namespace Validate

/-- Fixed class ids of the value model: `str` 1, `basestring` 2
(`object` 0, `NoneType` 3). -/
def basestringId : Nat := 2

/-- A declared field type. -/
inductive DeclType where
  | docClass (c : Nat)
  | manyRel (c : Nat)
  | strRef (s : String)
  | plainCls (t : Nat)
  deriving DecidableEq, Repr

/-- A Python value: `None`, a string, or any other object with its type's
mro (class ids) and an `__iter__` flag. -/
inductive PyVal where
  | pynone
  | pystr (s : String)
  | pyobj (mro : List Nat) (hasIter : Bool)
  deriving DecidableEq, Repr

/-- Embedding of `type(v).mro()` of a value. -/
def valMro : PyVal → List Nat
  | .pynone => [3, 0]
  | .pystr _ => [1, 2, 0]
  | .pyobj mro _ => mro

/-- Embedding of `isinstance(v, C)` for a class id. -/
def isinstance (v : PyVal) (t : Nat) : Bool :=
  t ∈ valMro v

/-- Embedding of `hasattr(value, '__iter__')`. -/
def hasIterV : PyVal → Bool
  | .pyobj _ it => it
  | _ => false

/-- Embedding of `isinstance(datatype, basestring)`. -/
def isStrRefD : DeclType → Bool
  | .strRef _ => true
  | _ => false

/-- Embedding of `issubclass(datatype, Document)` (ABCMeta: `False` for non-classes). -/
def isDocD : DeclType → Bool
  | .docClass _ => true
  | _ => false

/-- Embedding of `isinstance(datatype, OneToManyRelation)`. -/
def isManyD : DeclType → Bool
  | .manyRel _ => true
  | _ => false

/-- The class id used by the final `isinstance(value, datatype)` check
(reached only for `docClass`/`plainCls` datatypes). -/
def dtClassId : DeclType → Nat
  | .docClass c => c
  | .plainCls t => t
  | .manyRel c => c
  | .strRef _ => 0

/-- The payload of a raised `ValidationError`: document class name, field
name and failing value. -/
structure VErr where
  cls : String
  field : String
  value : PyVal
  deriving DecidableEq, Repr

/-- Embedding of `meta.structure.get(key)`. -/
def structGet (struc : List (String × DeclType)) (key : String) :
    Option DeclType :=
  (struc.find? (fun p => p.1 = key)).map (·.2)

/-- Embedding of `_validate_value_type(doc, key, value)` (document_base.py 770-801),
branch for branch: `None` passes; an undeclared field passes; a string
datatype (lazy reference) passes; a `Document`-subclass datatype with a
string value passes; a `OneToManyRelation` datatype requires `__iter__`;
anything else requires `isinstance(value, datatype)`. -/
def validateValueType (clsName : String) (struc : List (String × DeclType))
    (key : String) (value : PyVal) : Except VErr Unit :=
  if value = .pynone then .ok ()
  else
    match structGet struc key with
    | none => .ok ()
    | some dt =>
      if isStrRefD dt then .ok ()
      else if isDocD dt && isinstance value basestringId then .ok ()
      else if isManyD dt then
        if ¬ hasIterV value then .error ⟨clsName, key, value⟩ else .ok ()
      else if ¬ isinstance value (dtClassId dt) then .error ⟨clsName, key, value⟩
      else .ok ()

/-- Acceptance as claim C6 reads it: `None` always; for a declared Document
variant, an instance of that variant or a raw primary-key string; for a
to-many relation, exactly the iterable values; for any other declared type,
exactly the values passing `isinstance`.  (A lazy string reference falls
under none of the claim's categories; the claim theorem's hypothesis
excludes it.) -/
def claimAccepts (struc : List (String × DeclType)) (key : String)
    (value : PyVal) : Bool :=
  value = .pynone ||
    match structGet struc key with
    | none => true
    | some (.strRef _) => true
    | some (.docClass c) => isinstance value c || isinstance value basestringId
    | some (.manyRel _) => hasIterV value
    | some (.plainCls t) => isinstance value t

/-- The witness schema: a document field, a to-many field and an int field. -/
def wStruc : List (String × DeclType) :=
  [("author", .docClass 10), ("books", .manyRel 11), ("age", .plainCls 4)]

end Validate

/-! ## `get_or_create` over the shelve backend (backend_base.py 237-256)

`BaseStorageAdapter.get_or_create` asserts that conditions were given,
builds `self.find(doc_class).where(**conditions)`, and returns
`(query[0], False)` when `query.count()` is non-zero, else constructs
`doc_class(**conditions)`, saves it and returns `(obj, True)`.

The end-to-end model instantiates the pipeline for the shelve backend with
a structure-less `Document` class (no schema, no validators — so
`contribute_to_query` adds nothing and construction stores the conditions
verbatim).  Modelled from the spec, because the shelve `lookups` and
`converters` modules are absent from the source tree: each `field=value`
condition goes through the default `equals` lookup processor, which yields
the per-record equality check, and the value converters are the identity on
the model's string values.  `query.count()`/`query[0]` re-run `_do_search`
over the store and decorate the first matching key via
`Document.from_storage` (the `CachedIterator.__getitem__` cache is
irrelevant here since the store is unchanged in between).  `uuid4` key
generation is modelled by a counter in the store. -/

namespace GOC

/-- A record / conditions dictionary: field name to string value. -/
abbrev Data := List (String × String)

/-- The shelve store plus the state of the uid generator. -/
structure Store where
  recs : List (String × Data)
  nextId : Nat
  deriving DecidableEq, Repr

def dlookup (d : Data) (n : String) : Option String :=
  (d.find? (fun p => p.1 = n)).map (·.2)

/-- The conjunction of the translated `equals` checks of
`conditions` against one record. -/
def condsMatch (conds : Data) (d : Data) : Bool :=
  conds.all (fun c => dlookup d c.1 = some c.2)

/-- Embedding of `_do_search` of the condition query: the keys of the records passing
every check, in store order. -/
def search (s : Store) (conds : Data) : List String :=
  (s.recs.filter (fun r => condsMatch conds r.2)).map Prod.fst

/-- A structure-less document: saved-state binding (the model has a single
storage) plus the `_data` fields. -/
structure Doc where
  bound : Bool
  key : Option String
  sdata : Option Data
  fields : Data
  deriving DecidableEq, Repr

/-- Embedding of `Document.from_storage` for a structure-less class: the raw data is
stored verbatim and the state is bound to the storage and key. -/
def fromStorage (key : String) (data : Data) : Doc :=
  { bound := true, key := some key, sdata := some data, fields := data }

def getRec (s : Store) (k : String) : Data :=
  ((s.recs.find? (fun p => p.1 = k)).map (·.2)).getD []

/-- Embedding of `storage.get(key, doc_class)` → `_decorate` → `from_storage`. -/
def get (s : Store) (k : String) : Doc :=
  fromStorage k (getRec s k)

/-- Embedding of `_generate_uid()` (deterministic stand-in for `uuid4`). -/
def genUid (s : Store) : String :=
  "uid" ++ toString s.nextId

/-- Dictionary assignment over the record list (replace or append), as
`self.connection[key] = data`. -/
def setRec (recs : List (String × Data)) (k : String) (data : Data) :
    List (String × Data) :=
  if (recs.find? (fun p => p.1 = k)).isSome then
    recs.map (fun p => if p.1 = k then (k, data) else p)
  else recs ++ [(k, data)]

/-- Embedding of `StorageAdapter._save(key, data)` (ext/shelve_db 336-340):
`key = str(key or self._generate_uid())`, write, return the key. -/
def rawSave (s : Store) (key : Option String) (data : Data) :
    Store × String :=
  match key with
  | some k =>
    if k ≠ "" then (⟨setRec s.recs k data, s.nextId⟩, k)
    else (⟨setRec s.recs (genUid s) data, s.nextId + 1⟩, genUid s)
  | none => (⟨setRec s.recs (genUid s) data, s.nextId + 1⟩, genUid s)

def dset (d : Data) (n : String) (v : String) : Data :=
  if (d.find? (fun p => p.1 = n)).isSome then
    d.map (fun p => if p.1 = n then (n, v) else p)
  else d ++ [(n, v)]

/-- Embedding of `Document.save(storage)` for the structure-less document: no defaults,
no validators, the fields overlaid on a copy of the raw state data with
identity conversion; the key passed on is the document's own only when the
target storage is the one it is bound to (which in the single-storage model
is `bound`), and the state is updated with the returned key, the storage
and the written data. -/
def docSave (d : Doc) (s : Store) : Store × Doc × String :=
  let base := d.sdata.getD []
  let outData := d.fields.foldl (fun acc p => dset acc p.1 p.2) base
  let pk := if d.bound then d.key else none
  let (s1, k) := rawSave s pk outData
  (s1, { bound := true, key := some k, sdata := some outData,
         fields := d.fields }, k)

/-- Embedding of `doc_class(**conditions)`: an unbound document holding the conditions. -/
def constructDoc (conds : Data) : Doc :=
  { bound := false, key := none, sdata := none, fields := conds }

/-- Embedding of `BaseStorageAdapter.get_or_create(doc_class, **conditions)`
(backend_base.py 237-256); `.error ()` is the `assert conditions` failure. -/
def getOrCreate (s : Store) (conds : Data) :
    Except Unit ((Doc × Bool) × Store) :=
  if conds = [] then .error ()
  else
    match search s conds with
    | pk :: _ => .ok ((get s pk, false), s)
    | [] =>
      let d := constructDoc conds
      let r := docSave d s
      .ok ((r.2.1, true), r.1)

/-- The conditions of the C9 witness scenario. -/
def wConds : Data := [("email", "x")]

end GOC

/-! ## Document equality (`DocumentSavedState.__eq__`, `Document.__eq__`)

`DocumentSavedState.__eq__` (document_base.py 89-93) returns `True` only
when `self.storage and self.key and other` are all truthy and storage and
key agree; `Document.__eq__` (285-290) short-circuits to `False` for a
falsy `other` or one without a `_saved_state`, else compares the states.
The saved state is `DocSave.SState`; a document adds its `_data`.  The
truthiness of a document (a dict-like mapping, per the spec's data model —
`DotDict` is absent from the source tree) is that of its `_data`. -/

namespace DocEq

/-- A document as far as `__eq__` is concerned: its `_data` and its
`_saved_state`. -/
structure Doc where
  data : DocSave.DData
  state : DocSave.SState

/-- Embedding of `DocumentSavedState.__nonzero__` (document_base.py 107-109):
`bool(self.storage or self.key)`. -/
def stateTruthy (s : DocSave.SState) : Bool :=
  DocSave.storTruthy s.storage || DocSave.keyTruthy s.key

/-- Embedding of `DocumentSavedState.__eq__` (document_base.py 89-93). -/
def stateEq (self other : DocSave.SState) : Bool :=
  if DocSave.storTruthy self.storage && DocSave.keyTruthy self.key
      && stateTruthy other then
    if decide (self.storage = other.storage) && decide (self.key = other.key) then
      true
    else false
  else false

/-- The `other` operand of `Document.__eq__`: another document, or any
non-document value (only its truthiness matters — either way both guards
lead to `False`). -/
inductive Other where
  | doc (d : Doc)
  | nonDoc (truthy : Bool)

/-- Modelled from the spec: a Document is a dict-like mapping (`DotDict` is
not in the tree), so `not other` is emptiness of its `_data`. -/
def docTruthy (d : Doc) : Bool :=
  decide (d.data ≠ [])

/-- Embedding of `Document.__eq__` (document_base.py 285-290). -/
def docEq (self : Doc) (o : Other) : Bool :=
  match o with
  | .nonDoc _ => false
  | .doc d2 =>
    if ¬ docTruthy d2 then false
    else stateEq self.state d2.state

/-- A transient document: fields set but no storage or key bound. -/
def dTrans : Doc :=
  { data := [("a", DocSave.Val.vint 1)],
    state := { storage := none, key := none, sdata := none } }

/-- A document bound to storage 1 under key `k`. -/
def bDoc1 : Doc :=
  { data := [("x", DocSave.Val.vint 2)],
    state := { storage := some 1, key := some "k", sdata := none } }

/-- A different document instance bound to the same storage and key. -/
def bDoc2 : Doc :=
  { data := [("y", DocSave.Val.vint 3)],
    state := { storage := some 1, key := some "k", sdata := some [] } }

end DocEq

namespace Batch

theorem storeLookup_eq_none_iff (s : Store) (k : String) :
    storeLookup s k = none ↔ k ∉ s.map Prod.fst := by
  rw [storeLookup, Option.map_eq_none', List.find?_eq_none]
  simp only [decide_eq_true_eq, List.mem_map, not_exists, not_and]

theorem mem_of_storeLookup_eq_some {s : Store} {k : String} {d : Rec}
    (h : storeLookup s k = some d) : (k, d) ∈ s := by
  unfold storeLookup at h
  obtain ⟨p, hp, hd⟩ := Option.map_eq_some'.mp h
  have h1 := List.mem_of_find?_eq_some hp
  have h2 : p.1 = k := by simpa using List.find?_some hp
  cases p
  simp only at hd h2
  subst hd h2
  exact h1

theorem mem_foundKeys_iff (s : Store) (keys : List String) (k : String) :
    k ∈ (s.filter (fun p => p.1 ∈ keys)).map Prod.fst ↔
      k ∈ s.map Prod.fst ∧ k ∈ keys := by
  constructor
  · intro h
    obtain ⟨p, hp, rfl⟩ := List.mem_map.mp h
    obtain ⟨hps, hpk⟩ := List.mem_filter.mp hp
    exact ⟨List.mem_map.mpr ⟨p, hps, rfl⟩, by simpa using hpk⟩
  · rintro ⟨h1, h2⟩
    obtain ⟨p, hp, rfl⟩ := List.mem_map.mp h1
    exact List.mem_map.mpr ⟨p, List.mem_filter.mpr ⟨hp, by simpa using h2⟩, rfl⟩

end Batch

/-- C1: the claim that `_pick_processor` resolution walks the datatype's
ancestry (most-specific to least-specific) before raising is wrong on the
code: with a converter registered for the base class (id 1) only, resolving
the subclass (mro `[0, 1, 2]`) raises `DataProcessorDoesNotExist` (= `none`)
even though the base class resolves fine directly — the loop re-queries the
exact datatype once per base and never queries the bases.  The canonical
mappings do hold: any Document subclass resolves via the `Document` key and
any `OneToManyRelation` instance via the `OneToManyRelation` key. -/
theorem c1_ancestry_walk_never_happens :
    Registry.pickProcessor Registry.mBase Registry.dtSub = none ∧
    (Registry.PKey.kCls 1, 7) ∈ Registry.mBase.processors ∧
    (1 : Nat) ∈ Registry.basesOf Registry.dtSub ∧
    Registry.pickProcessor Registry.mBase Registry.dtBase = some 7 ∧
    Registry.pickProcessor ⟨[(.kDocument, 3)], none⟩ (.cls [5, 9, 2] true) = some 3 ∧
    Registry.pickProcessor ⟨[(.kOneToMany, 4)], none⟩ .relInstance = some 4 := by
  decide

/-- C2 counterexample: on an empty store, consuming
`get_many(["b", "c"])` via the generic per-key implementation raises the
single-key error naming only `"b"`, although `"c"` is also missing — the
error does not name every missing key as the claim states. -/
theorem c2_base_get_many_names_only_first_missing :
    Batch.baseConsume ([] : Batch.Store) ["b", "c"] = ([], some ["b"]) ∧
    Batch.storeLookup ([] : Batch.Store) "c" = none ∧
    "c" ∉ ["b"] := by
  decide

/-- C2 amended: for the MongoDB `_get_many` — over a store with distinct
primary keys — consuming the sequence with at least one requested key absent
yields every present requested key's record and then raises a single
not-found error naming exactly the missing keys; the generic per-key default
instead fails at the first missing key naming only it (see the
counterexample). -/
theorem c2_mongo_get_many_aggregate (s : Batch.Store) (keys : List String)
    (hs : (s.map Prod.fst).Nodup)
    (hmiss : ∃ k, k ∈ keys ∧ Batch.storeLookup s k = none) :
    (Batch.mongoConsume s keys).2 =
      some (keys.filter (fun k => Batch.storeLookup s k = none)) ∧
    ∀ k d, k ∈ keys → Batch.storeLookup s k = some d →
      (k, d) ∈ (Batch.mongoConsume s keys).1 := by
  obtain ⟨k0, hk0, hk0n⟩ := hmiss
  have hmemiff : ∀ x, x ∈ (s.filter (fun p => p.1 ∈ keys)).map Prod.fst ↔
      x ∈ s.map Prod.fst ∧ x ∈ keys := fun x => Batch.mem_foundKeys_iff s keys x
  have hfnd : ((s.filter (fun p => p.1 ∈ keys)).map Prod.fst).Nodup := by
    have hsub : (s.filter (fun p => p.1 ∈ keys)).Sublist s := List.filter_sublist s
    exact (hsub.map Prod.fst).nodup hs
  have hk0nf : k0 ∉ (s.filter (fun p => p.1 ∈ keys)).map Prod.fst := fun h =>
    ((Batch.storeLookup_eq_none_iff s k0).mp hk0n) ((hmemiff k0).mp h).1
  have hss : (s.filter (fun p => p.1 ∈ keys)).map Prod.fst ⊆ keys.erase k0 := by
    intro x hx
    have hxk : x ∈ keys := ((hmemiff x).mp hx).2
    have hne : x ≠ k0 := fun he => hk0nf (he ▸ hx)
    exact (List.mem_erase_of_ne hne).mpr hxk
  have hlt : ((s.filter (fun p => p.1 ∈ keys)).map Prod.fst).length < keys.length := by
    have h1 : ((s.filter (fun p => p.1 ∈ keys)).map Prod.fst).length ≤
        (keys.erase k0).length := (hfnd.subperm hss).length_le
    have h2 : (keys.erase k0).length = keys.length - 1 :=
      List.length_erase_of_mem hk0
    have h3 : 0 < keys.length := List.length_pos_of_mem hk0
    omega
  constructor
  · unfold Batch.mongoConsume
    dsimp only
    rw [if_pos hlt]
    dsimp only
    congr 1
    apply List.filter_congr
    intro x hx
    simp only [decide_eq_decide]
    rw [Batch.storeLookup_eq_none_iff]
    constructor
    · intro hnf hmap
      exact hnf ((hmemiff x).mpr ⟨hmap, hx⟩)
    · intro hmap hf
      exact hmap ((hmemiff x).mp hf).1
  · intro k d hkk hlook
    unfold Batch.mongoConsume
    dsimp only
    rw [if_pos hlt]
    dsimp only
    exact List.mem_filter.mpr ⟨Batch.mem_of_storeLookup_eq_some hlook, by simpa using hkk⟩

/-- Witness for C2's amended theorem at the concrete store `{a ↦ {f: 1}}`
and request `["a", "b", "c"]`. -/
theorem c2_mongo_get_many_aggregate_witness :
    (Batch.mongoConsume Batch.wStore Batch.wKeys).2 = some ["b", "c"] ∧
    ("a", [("f", 1)]) ∈ (Batch.mongoConsume Batch.wStore Batch.wKeys).1 :=
  ⟨by
    have h := (c2_mongo_get_many_aggregate Batch.wStore Batch.wKeys (by decide)
      ⟨"b", by decide, by decide⟩).1
    rw [h]; decide,
   (c2_mongo_get_many_aggregate Batch.wStore Batch.wKeys (by decide)
      ⟨"b", by decide, by decide⟩).2 "a" [("f", 1)] (by decide) (by decide)⟩

/-- C3: iterating a shelve query twice does *not* yield the same sequence,
and the second iteration re-invokes `_do_search`.  After the first full
iteration the `CachedIterator` drops its exhausted iterator
(`self._iter = None`), so the shelve `_prepare` — whose only guard is
`self._iter is None` — runs `_do_search` again, and the fresh results are
appended after the cached ones: over the one-record store `st3` the first
iteration yields the record once, the second yields it twice, with two
backend searches for the instance. -/
theorem c3_second_iteration_reruns_search_and_duplicates :
    (Shelve.runIter (Shelve.initQuery Shelve.st3 none none)).1 =
      [("k", [("a", 1)])] ∧
    (Shelve.runIter (Shelve.runIter (Shelve.initQuery Shelve.st3 none none)).2).1 =
      [("k", [("a", 1)]), ("k", [("a", 1)])] ∧
    (Shelve.runIter (Shelve.runIter (Shelve.initQuery Shelve.st3 none none)).2).1 ≠
      (Shelve.runIter (Shelve.initQuery Shelve.st3 none none)).1 ∧
    (Shelve.runIter (Shelve.runIter (Shelve.initQuery Shelve.st3 none none)).2).2.searches
      = 2 := by
  refine ⟨rfl, rfl, ?_, rfl⟩
  decide

/-- C7: the claim fails for `where_not` on the shelve adapter: `_where_not`
hands the conditions dict to the keyword-only `_where` as a positional
argument, so every `where_not` call raises `TypeError` and no refined Query
is ever returned — against the claim and `_where_not`'s own docstring
("Returns Query instance"; the intended call was
`self.__where(conditions, negate=True)`).  The rest of the claim holds:
`where` and `order_by` build a brand-new adapter whose condition list is
the parent's with the translated conditions appended (`where`) or unchanged
(`order_by`), whose ordering is respectively inherited or replaced by the
new spec, and whose result cache is freshly empty whatever the parent's
cache holds; `_clone` constructs the child from copies
(`self._conditions + extra`), performing no assignment on the parent. -/
theorem c7_where_not_raises_where_appends
    (q : Shelve.Query) (translated : List Shelve.Cond)
    (names : List String) (rev : Bool) :
    Shelve.whereNotQ q translated = .error () ∧
    Shelve.whereQ q translated = .ok (Shelve.privWhere q translated) ∧
    (Shelve.privWhere q translated).conditions = q.conditions ++ translated ∧
    (Shelve.privWhere q translated).ordering = q.ordering ∧
    (Shelve.privWhere q translated).cache = [] ∧
    (Shelve.orderBy q names rev).conditions = q.conditions ∧
    (Shelve.orderBy q names rev).ordering =
      some { names := names.reverse, reverse := rev } ∧
    (Shelve.orderBy q names rev).cache = [] := by
  refine ⟨rfl, rfl, ?_, ?_, rfl, ?_, ?_, rfl⟩
  · simp [Shelve.privWhere, Shelve.clone, Shelve.initQuery]
  · simp [Shelve.privWhere, Shelve.clone, Shelve.initQuery]
  · simp [Shelve.orderBy, Shelve.clone, Shelve.initQuery]
  · simp [Shelve.orderBy, Shelve.clone, Shelve.initQuery]

/-- C8: ordering by several field names hands the *reversed* name list to a
single stable sort as one composite lexicographic key, so the *last* listed
name — not the first, as the claim and the method's own docstring state —
dominates the result: over `st8` (`p1 = {a:1, b:2}`, `p2 = {a:2, b:1}`),
`order_by(['a','b'])` yields `p2` before `p1` (ascending `b`), although
ascending `a` would put `p1` first. -/
theorem c8_last_listed_name_dominates_sort :
    (Shelve.orderBy (Shelve.initQuery Shelve.st8 none none) ["a", "b"] false).iter
      = some ["p2", "p1"] ∧
    Shelve.recGet (Shelve.storeGet Shelve.st8 "p1") "a" = some 1 ∧
    Shelve.recGet (Shelve.storeGet Shelve.st8 "p2") "a" = some 2 ∧
    (["p2", "p1"] : List Shelve.PK) ≠ ["p1", "p2"] := by
  refine ⟨rfl, rfl, rfl, ?_⟩
  decide

/-- C4: whenever `Document.save` succeeds, the key passed to the backend
call is the document's existing primary key exactly when `keep_key` is set
or the target storage equals the currently bound one (and `None` otherwise,
so the backend generates a fresh key), and the resulting `SavedState` holds
exactly the backend-returned key, the target storage and the data
dictionary that was handed to the backend save call. -/
theorem c4_save_primary_key_and_state (doc : DocSave.Doc) (meta : DocSave.Meta)
    (env : DocSave.Env) (storageArg : Option Nat) (keepKey : Bool)
    (dres : DocSave.Doc) (k : String)
    (h : DocSave.Doc.save doc meta env storageArg keepKey = .ok (dres, k)) :
    k ≠ "" ∧
    k = env.backendSave
        (DocSave.savePrimaryKey doc (DocSave.resolveStorage doc storageArg) keepKey)
        (DocSave.buildOutgoing meta env doc.state dres.data) ∧
    dres.state.storage = some (DocSave.resolveStorage doc storageArg) ∧
    dres.state.key = some k ∧
    dres.state.sdata = some (DocSave.buildOutgoing meta env doc.state dres.data) ∧
    ((keepKey = true ∨ some (DocSave.resolveStorage doc storageArg) = doc.state.storage) →
      DocSave.savePrimaryKey doc (DocSave.resolveStorage doc storageArg) keepKey
        = doc.state.key) ∧
    (keepKey = false →
      some (DocSave.resolveStorage doc storageArg) ≠ doc.state.storage →
      DocSave.savePrimaryKey doc (DocSave.resolveStorage doc storageArg) keepKey
        = none) := by
  unfold DocSave.Doc.save at h
  split at h
  · exact absurd h (by simp)
  · dsimp only at h
    split at h
    · exact absurd h (by simp)
    · rename_i pairs hpairs
      split at h
      · exact absurd h (by simp)
      · split at h
        · exact absurd h (by simp)
        · rename_i hval hkey
          rw [Except.ok.injEq, Prod.mk.injEq] at h
          obtain ⟨hd, hk⟩ := h
          subst hd
          subst hk
          refine ⟨by simpa using hkey, rfl, ?_, ?_, ?_, ?_, ?_⟩
          · simp [DocSave.SState.update, DocSave.storTruthy]
          · simp only [DocSave.SState.update, DocSave.storTruthy, DocSave.keyTruthy]
            have hkt : DocSave.keyTruthy (some (env.backendSave
                (DocSave.savePrimaryKey doc (DocSave.resolveStorage doc storageArg) keepKey)
                (DocSave.buildOutgoing meta env doc.state
                  (List.foldl (fun acc p => DocSave.dset acc p.1 p.2) doc.data pairs)))) =
                true := by
              simpa [DocSave.keyTruthy] using hkey
            simp [hkt]
            exact fun hc => absurd hc hkey
          · simp [DocSave.SState.update, DocSave.storTruthy]
          · intro h5
            unfold DocSave.savePrimaryKey
            rcases h5 with h5 | h5
            · simp [h5]
            · simp [h5]
          · intro h5 h6
            unfold DocSave.savePrimaryKey
            simp [h5, h6]

/-- Witness for C4: the bound document `wDoc` (storage 1, key `k0`) saved to
storage 2 without `keep_key` — the backend is handed `None` and the state is
rebound to storage 2, key `k1`, data `{a: 1}`. -/
theorem c4_save_witness :
    DocSave.wRes.state.storage = some 2 ∧
    DocSave.wRes.state.key = some "k1" ∧
    DocSave.wRes.state.sdata =
      some (DocSave.buildOutgoing DocSave.wMeta DocSave.wEnv DocSave.wDoc.state
        DocSave.wRes.data) ∧
    DocSave.savePrimaryKey DocSave.wDoc
      (DocSave.resolveStorage DocSave.wDoc (some 2)) false = none :=
  let h := c4_save_primary_key_and_state DocSave.wDoc DocSave.wMeta DocSave.wEnv
    (some 2) false DocSave.wRes "k1" (by rfl)
  ⟨h.2.2.1, h.2.2.2.1, h.2.2.2.2.1,
   h.2.2.2.2.2.2 rfl (by simp [DocSave.wDoc, DocSave.resolveStorage])⟩

/-- C5 counterexample: the defaults table `{x: lambda: 5}` — a
*zero-argument* callable that is a plain Python function — is, per the
claim, called with no arguments yielding `x = 5`; the code instead calls
every `FunctionType` default with the document as argument, so
`_collect_defaults` raises `TypeError`. -/
theorem c5_zero_arg_function_default_raises :
    DocSave.collectDefaults DocSave.c5defs [] = .error () ∧
    DocSave.collectDefaultsClaim DocSave.c5defs [] = [("x", DocSave.Val.vint 5)] :=
  ⟨rfl, rfl⟩

/-- C5 amended: during save, every defaults-table field whose current value
is `None` or `''` receives its default before validation, where a
non-callable default is used as-is, a default that is a plain function
(`types.FunctionType`, e.g. built by `def`/`lambda`) is called with the
document as its single argument, and any other callable default is called
with no arguments (an arity mismatch raises `TypeError`): the collected
pairs are exactly the emptiness-filtered defaults invoked by that rule. -/
theorem c5_collect_defaults_function_type_rule
    (defs : List (String × DocSave.PyDefault)) (d : DocSave.DData) :
    DocSave.collectDefaults defs d = DocSave.collectDefaultsAmended defs d := by
  induction defs with
  | nil => rfl
  | cons p rest ih =>
    obtain ⟨name, dv⟩ := p
    unfold DocSave.collectDefaults DocSave.collectDefaultsAmended
    unfold DocSave.collectDefaultsAmended at ih
    rw [List.filter_cons]
    by_cases hemp : DocSave.isEmptyVal (DocSave.dget d name)
    · rw [if_pos hemp, if_pos (by simpa using hemp)]
      unfold DocSave.mapDefaults
      cases DocSave.applyDefault dv d with
      | error e => rfl
      | ok v => rw [ih]
    · rw [if_neg hemp, if_neg (by simpa using hemp)]
      exact ih

/-- C6: for every document class name, schema, field and value — with the
field's declared type not a lazy string reference, the one case outside the
claim's categories — the type-check step accepts exactly as the claim
states: `None` unconditionally; for a Document-variant type an instance of
that variant or a raw primary-key string; for a to-many relation exactly the
iterable values; for any other declared type exactly the `isinstance`
matches; and every rejection carries the class name, field name and failing
value. -/
theorem c6_validate_value_type_cases (clsName : String)
    (struc : List (String × Validate.DeclType)) (key : String)
    (value : Validate.PyVal)
    (h : (Validate.structGet struc key).all
      (fun dt => !Validate.isStrRefD dt) = true) :
    ((Validate.validateValueType clsName struc key value = .ok ()) ↔
      Validate.claimAccepts struc key value = true) ∧
    (∀ e, Validate.validateValueType clsName struc key value = .error e →
      e = ⟨clsName, key, value⟩) := by
  unfold Validate.validateValueType Validate.claimAccepts
  by_cases hnone : value = Validate.PyVal.pynone
  · subst hnone
    simp
  · cases hdt : Validate.structGet struc key with
    | none => simp [hnone]
    | some dt =>
      rw [hdt] at h
      cases dt with
      | strRef s => simp [Validate.isStrRefD] at h
      | docClass c =>
        by_cases hbs : Validate.isinstance value Validate.basestringId <;>
        by_cases hc : Validate.isinstance value c <;>
          simp_all [Validate.isStrRefD, Validate.isDocD, Validate.isManyD,
            Validate.dtClassId]
      | manyRel c =>
        by_cases hit : Validate.hasIterV value <;>
          simp_all [Validate.isStrRefD, Validate.isDocD, Validate.isManyD]
      | plainCls t =>
        by_cases ht : Validate.isinstance value t <;>
          simp_all [Validate.isStrRefD, Validate.isDocD, Validate.isManyD,
            Validate.dtClassId]

/-- Witness for C6 over the concrete schema `wStruc`: an `int`-typed field
accepts an int instance, a to-many field rejects a non-iterable object with
the error carrying (class, field, value), and a Document-typed field
accepts a raw primary-key string. -/
theorem c6_validate_value_type_witness :
    ((Validate.validateValueType "Book" Validate.wStruc "age"
        (Validate.PyVal.pyobj [4, 0] false) = .ok ()) ↔
      Validate.claimAccepts Validate.wStruc "age"
        (Validate.PyVal.pyobj [4, 0] false) = true) ∧
    (Validate.VErr.mk "Book" "books" (Validate.PyVal.pyobj [12, 0] false) =
      ⟨"Book", "books", Validate.PyVal.pyobj [12, 0] false⟩) ∧
    ((Validate.validateValueType "Book" Validate.wStruc "author"
        (Validate.PyVal.pystr "pk9") = .ok ()) ↔
      Validate.claimAccepts Validate.wStruc "author"
        (Validate.PyVal.pystr "pk9") = true) := by
  exact ⟨(c6_validate_value_type_cases "Book" Validate.wStruc "age" _ (by decide)).1,
    (c6_validate_value_type_cases "Book" Validate.wStruc "books" _ (by decide)).2
      ⟨"Book", "books", Validate.PyVal.pyobj [12, 0] false⟩ (by rfl),
    (c6_validate_value_type_cases "Book" Validate.wStruc "author" _ (by decide)).1⟩

namespace GOC

theorem dlookup_self {conds : Data} (hnd : (conds.map Prod.fst).Nodup) :
    ∀ p ∈ conds, dlookup conds p.1 = some p.2 := by
  induction conds with
  | nil => intro p hp; cases hp
  | cons q rs ih =>
    intro p hp
    rw [List.map_cons, List.nodup_cons] at hnd
    rcases List.mem_cons.mp hp with h | h
    · subst h
      simp [dlookup, List.find?]
    · have hne : ¬(q.1 = p.1) := by
        intro he
        exact hnd.1 (he ▸ List.mem_map.mpr ⟨p, h, rfl⟩)
      have hrs := ih hnd.2 p h
      unfold dlookup at hrs ⊢
      simp only [List.find?, hne, decide_False]
      exact hrs

theorem condsMatch_self {conds : Data} (hnd : (conds.map Prod.fst).Nodup) :
    condsMatch conds conds = true := by
  unfold condsMatch
  rw [List.all_eq_true]
  intro p hp
  simpa using dlookup_self hnd p hp

theorem dset_of_not_mem {acc : Data} {n v : String}
    (h : n ∉ acc.map Prod.fst) : dset acc n v = acc ++ [(n, v)] := by
  unfold dset
  rw [if_neg]
  intro hs
  obtain ⟨p, hp⟩ := Option.isSome_iff_exists.mp hs
  have hpm := List.mem_of_find?_eq_some hp
  have hpk : p.1 = n := by simpa using List.find?_some hp
  exact h (hpk ▸ List.mem_map.mpr ⟨p, hpm, rfl⟩)

theorem foldl_dset_eq_append (rest : Data) : ∀ acc : Data,
    (∀ p ∈ rest, p.1 ∉ acc.map Prod.fst) → (rest.map Prod.fst).Nodup →
    rest.foldl (fun acc p => dset acc p.1 p.2) acc = acc ++ rest := by
  induction rest with
  | nil =>
    intro acc _ _
    simp
  | cons q rs ih =>
    intro acc hdisj hnd
    rw [List.map_cons, List.nodup_cons] at hnd
    simp only [List.foldl_cons]
    rw [dset_of_not_mem (hdisj q (List.mem_cons_self q rs))]
    rw [ih (acc ++ [q]) ?_ hnd.2]
    · simp
    · intro p hp
      simp only [List.map_append, List.mem_append]
      rintro (h1 | h1)
      · exact hdisj p (List.mem_cons_of_mem q hp) h1
      · have hpq : p.1 = q.1 := by simpa using h1
        exact hnd.1 (hpq ▸ List.mem_map.mpr ⟨p, hp, rfl⟩)

end GOC

/-- C9: `get_or_create(doc_class, **conditions)` (the `conditions` keyword
dict has distinct, at least one, names): when the condition query has a
first match `pk`, it returns that decorated record with `created = False`
and the store untouched; when nothing matches, it constructs the document
from the conditions, saves it (the written record is exactly the condition
dict, under a freshly generated key) and returns it with `created = True`;
hence on an empty store one record is created and a second identical call
returns that same record with `created = False`. -/
theorem c9_get_or_create_first_match_or_create (s : GOC.Store)
    (conds : GOC.Data) (hc : conds ≠ [])
    (hnd : (conds.map Prod.fst).Nodup) :
    (∀ pk rest, GOC.search s conds = pk :: rest →
      GOC.getOrCreate s conds = .ok ((GOC.get s pk, false), s)) ∧
    (GOC.search s conds = [] →
      GOC.getOrCreate s conds =
        .ok (({ bound := true, key := some (GOC.genUid s),
                sdata := some conds, fields := conds }, true),
             { recs := GOC.setRec s.recs (GOC.genUid s) conds,
               nextId := s.nextId + 1 })) ∧
    (GOC.getOrCreate { recs := [], nextId := 0 } conds =
      .ok (({ bound := true, key := some "uid0", sdata := some conds,
              fields := conds }, true),
           { recs := [("uid0", conds)], nextId := 1 })) ∧
    (GOC.getOrCreate { recs := [("uid0", conds)], nextId := 1 } conds =
      .ok ((GOC.fromStorage "uid0" conds, false),
           { recs := [("uid0", conds)], nextId := 1 })) := by
  have hfold : conds.foldl (fun acc p => GOC.dset acc p.1 p.2) [] = conds := by
    have := GOC.foldl_dset_eq_append conds [] (by simp) hnd
    simpa using this
  refine ⟨?_, ?_, ?_, ?_⟩
  · intro pk rest hsearch
    unfold GOC.getOrCreate
    rw [if_neg hc, hsearch]
  · intro hsearch
    unfold GOC.getOrCreate
    rw [if_neg hc, hsearch]
    unfold GOC.docSave GOC.constructDoc GOC.rawSave
    simp [hfold]
  · unfold GOC.getOrCreate
    rw [if_neg hc]
    have hsearch : GOC.search { recs := [], nextId := 0 } conds = [] := rfl
    rw [hsearch]
    unfold GOC.docSave GOC.constructDoc GOC.rawSave
    simp [hfold]
    have huid : GOC.genUid { recs := [], nextId := 0 } = "uid0" := by decide
    rw [huid]
    exact ⟨rfl, by simp [GOC.setRec]⟩
  · unfold GOC.getOrCreate
    rw [if_neg hc]
    have hm := GOC.condsMatch_self hnd
    have hsearch : GOC.search { recs := [("uid0", conds)], nextId := 1 } conds
        = ["uid0"] := by
      simp [GOC.search, List.filter, hm]
    rw [hsearch]
    dsimp only
    have hget : GOC.get { recs := [("uid0", conds)], nextId := 1 } "uid0"
        = GOC.fromStorage "uid0" conds := by
      simp [GOC.get, GOC.getRec, List.find?]
    rw [hget]

/-- Witness for C9: the empty-store scenario with condition
`email = "x"` — the first call creates the single record `uid0`, the second
returns that same record with `created = False`. -/
theorem c9_get_or_create_witness :
    GOC.getOrCreate { recs := [], nextId := 0 } GOC.wConds =
      .ok (({ bound := true, key := some "uid0", sdata := some GOC.wConds,
              fields := GOC.wConds }, true),
           { recs := [("uid0", GOC.wConds)], nextId := 1 }) ∧
    GOC.getOrCreate { recs := [("uid0", GOC.wConds)], nextId := 1 } GOC.wConds =
      .ok ((GOC.fromStorage "uid0" GOC.wConds, false),
           { recs := [("uid0", GOC.wConds)], nextId := 1 }) :=
  let h := c9_get_or_create_first_match_or_create { recs := [], nextId := 0 }
    GOC.wConds (by decide) (by decide)
  ⟨h.2.2.1, h.2.2.2⟩

/-- C10: Document equality is decided solely by the saved state: a document
whose state lacks a truthy storage or a truthy primary key compares `False`
against everything — itself included, so `==` is not reflexive on transient
documents — and whenever `d1 == d2` holds, both saved states carry a
storage and a key and agree on both. -/
theorem c10_transient_never_equal_and_bound_states_agree
    (d : DocEq.Doc) (o : DocEq.Other) (d1 d2 : DocEq.Doc)
    (h : ¬(DocSave.storTruthy d.state.storage = true ∧
           DocSave.keyTruthy d.state.key = true)) :
    (DocEq.docEq d o = false ∧ DocEq.docEq d (.doc d) = false) ∧
    (DocEq.docEq d1 (.doc d2) = true →
      DocSave.storTruthy d1.state.storage = true ∧
      DocSave.keyTruthy d1.state.key = true ∧
      DocSave.storTruthy d2.state.storage = true ∧
      DocSave.keyTruthy d2.state.key = true ∧
      d1.state.storage = d2.state.storage ∧
      d1.state.key = d2.state.key) := by
  constructor
  · have hgen : ∀ o2, DocEq.docEq d o2 = false := by
      intro o2
      cases o2 with
      | nonDoc t => rfl
      | doc dd =>
        unfold DocEq.docEq
        dsimp only
        by_cases ht : DocEq.docTruthy dd = true
        · rw [if_neg (not_not_intro ht)]
          unfold DocEq.stateEq
          rw [if_neg]
          intro hcond
          simp only [Bool.and_eq_true] at hcond
          exact h ⟨by tauto, by tauto⟩
        · rw [if_pos ht]
    exact ⟨hgen o, hgen (.doc d)⟩
  · intro heq
    unfold DocEq.docEq at heq
    dsimp only at heq
    by_cases ht : DocEq.docTruthy d2 = true
    · rw [if_neg (not_not_intro ht)] at heq
      unfold DocEq.stateEq at heq
      by_cases hc1 : (DocSave.storTruthy d1.state.storage &&
          DocSave.keyTruthy d1.state.key && DocEq.stateTruthy d2.state) = true
      · rw [if_pos hc1] at heq
        by_cases hc2 : (decide (d1.state.storage = d2.state.storage) &&
            decide (d1.state.key = d2.state.key)) = true
        · simp only [Bool.and_eq_true, decide_eq_true_eq] at hc1 hc2
          obtain ⟨hst, hk⟩ := hc2
          refine ⟨by tauto, by tauto, ?_, ?_, hst, hk⟩
          · rw [← hst]
            tauto
          · rw [← hk]
            tauto
        · rw [if_neg hc2] at heq
          simp at heq
      · rw [if_neg hc1] at heq
        simp at heq
    · rw [if_pos ht] at heq
      simp at heq

/-- Witness for C10: the transient `dTrans` is unequal to itself, while the
two bound documents `bDoc1`/`bDoc2` compare equal and indeed share a truthy
storage and key. -/
theorem c10_transient_equality_witness :
    DocEq.docEq DocEq.dTrans (.doc DocEq.dTrans) = false ∧
    DocEq.bDoc1.state.storage = DocEq.bDoc2.state.storage ∧
    DocEq.bDoc1.state.key = DocEq.bDoc2.state.key ∧
    DocSave.storTruthy DocEq.bDoc2.state.storage = true :=
  let h := c10_transient_never_equal_and_bound_states_agree DocEq.dTrans
    (.doc DocEq.dTrans) DocEq.bDoc1 DocEq.bDoc2 (by decide)
  ⟨h.1.2, (h.2 (by decide)).2.2.2.2.1, (h.2 (by decide)).2.2.2.2.2,
    (h.2 (by decide)).2.2.1⟩
